import Mathlib

/-!
Shallow embedding of the core of `app.py` (a FastAPI service remote-controlling a
single headless Firefox instance through Selenium).

Modelling conventions:
* Python strings are `String` for titles and error details; URLs are `List Char`
  (`Url`) so that prefix reasoning is elementary.
* Every call into the Selenium driver is fallible.  The outcome of each such call
  is part of the `Session` state: deterministic per-handle oracles for
  `switch_to.window`, `driver.title`, `driver.current_url`, and call-indexed
  streams for `get_screenshot_as_png` and `set_window_size` (each invocation is an
  independent RPC that can fail on its own).
* A raised Python exception is the `Except.error` branch; `Exc.http` is FastAPI's
  `HTTPException(status_code, detail)`, `Exc.seleniumTimeout` is Selenium's
  `TimeoutException`, and `Exc.other` is any other driver-level exception.
* The HTTP routing layer, file writing (`FileResponse`), logging and `time.sleep`
  calls are outside the model; endpoints return their payload directly.
-/

/-- Bytes of a PNG image, as returned by `get_screenshot_as_png`. -/
abbrev Bytes := List Nat

/-- A Selenium window handle. -/
abbrev Handle := String

/-- A URL, modelled as its character sequence. -/
abbrev Url := List Char

/-- A Python exception as visible to the `except` clauses of `app.py`:
`http` is `fastapi.HTTPException(status_code, detail)`, `seleniumTimeout` is
`selenium.common.exceptions.TimeoutException`, `other` is any other exception. -/
inductive Exc where
  | http (statusCode : Nat) (detail : String)
  | seleniumTimeout
  | other (msg : String)
deriving DecidableEq, Repr

/-- Python `str(e)` as used in the `f"...: {str(e)}"` wrapping messages.
For an `HTTPException`, starlette renders `"{status_code}: {detail}"`. -/
def excStr : Exc → String
  | .http code detail => toString code ++ ": " ++ detail
  | .seleniumTimeout => "TimeoutException"
  | .other m => m

/-- `HTTPException(422, "浏览器未启动")`: raised by every endpoint when the global
`driver` is `None`. -/
def notRunningE : Exc := .http 422 "浏览器未启动"

/-- A driver-level exception without a modelled message (e.g. `WebDriverException`
raised by a `driver.title` / `driver.current_url` / `switch_to.window` call). -/
def driverErrE : Exc := .other "WebDriverException"

/-- Python `s.startswith(p)` on character lists: `startsWithL p s` is true iff
`p` is a literal prefix of `s`. -/
def startsWithL : List Char → List Char → Bool
  | [], _ => true
  | _ :: _, [] => false
  | p :: ps, c :: cs => p == c && startsWithL ps cs

/-- `format_url` from `app.py`: ensure the URL carries a protocol prefix.
`if not url.startswith(('http://', 'https://')): return 'https://' + url`. -/
def format_url (url : Url) : Url :=
  if startsWithL "http://".toList url || startsWithL "https://".toList url then url
  else "https://".toList ++ url

/-- Outcome of one poll of the page (`WebDriverWait(...).until(...)`):
the predicate became true, the wait timed out (`TimeoutException`), or the
underlying `execute_script` raised some other exception. -/
inductive PollOutcome where
  | complete
  | timedOut
  | errored
deriving DecidableEq, Repr

/-- What `wait_for_page_load` / `wait_for_page_load_safely` report after their
internal `except` clauses have run: fully loaded, or a swallowed timeout/error. -/
inductive WaitResult where
  | loaded
  | softTimeout
  | softError
deriving DecidableEq, Repr

/-- The state of the one live browser session (the global `driver`), together
with the oracles deciding the outcome of each fallible Selenium call. -/
structure Session where
  /-- `driver.window_handles` (enumeration order preserved). -/
  handles : List Handle
  /-- `driver.current_window_handle`. -/
  current : Handle
  /-- current window width, as set by `set_window_size`. -/
  winW : Int
  /-- current window height. -/
  winH : Int
  /-- outcome of reading `driver.title` while tab `h` is current (`none` = raises). -/
  titleOf : Handle → Option String
  /-- outcome of reading `driver.current_url` while tab `h` is current. -/
  urlOf : Handle → Option Url
  /-- whether `driver.switch_to.window h` succeeds. -/
  switchOk : Handle → Bool
  /-- outcomes of successive `get_screenshot_as_png` calls (`none` = raises). -/
  caps : Nat → Option Bytes
  /-- index of the next `get_screenshot_as_png` call. -/
  capIdx : Nat
  /-- outcomes of successive `set_window_size` calls (`false` = raises). -/
  resizes : Nat → Bool
  /-- index of the next `set_window_size` call. -/
  resizeIdx : Nat
  /-- whether `driver.get_window_size()` succeeds. -/
  getWinSizeOk : Bool
  /-- outcome of `execute_script("return document.body.scrollWidth")`. -/
  scrollW : Option Int
  /-- outcome of `execute_script("return document.body.scrollHeight")`. -/
  scrollH : Option Int
  /-- whether the `window.innerWidth` / `window.innerHeight` scripts succeed. -/
  innerSizeOk : Bool
  /-- outcome of `driver.get url`: `none` = success, `some e` = raises `e`. -/
  getResult : Url → Option Exc
  /-- outcome of polling `document.readyState == "complete"`. -/
  primaryPoll : PollOutcome
  /-- outcome of polling `Array.from(document.images).every(img => img.complete)`. -/
  imagesPoll : PollOutcome
  /-- whether `driver.close()` succeeds. -/
  closeOk : Bool
  /-- whether `execute_script("window.open('');")` succeeds. -/
  execOpenOk : Bool
  /-- the handle assigned to a freshly opened tab. -/
  newHandle : Handle
  /-- outcome of `driver.execute_script(script)` in `/api/execute_script`:
  outer `none` = raises; `some v` = returns value `v` (`none` = Python `None`).
  The JSON serialisation step is abstracted: it never raises (every failure path
  falls back to `str(result)`), so the delivered value is kept opaque. -/
  scriptResult : String → Option (Option String)

/-- One `get_screenshot_as_png` call: consume the next capture outcome. -/
def Session.takeCap (s : Session) : Option Bytes × Session :=
  (s.caps s.capIdx, { s with capIdx := s.capIdx + 1 })

/-- One `set_window_size w h` call: consume the next resize outcome; the window
size changes only when the call succeeds. -/
def Session.setWinSize (s : Session) (w h : Int) : Bool × Session :=
  let ok := s.resizes s.resizeIdx
  (ok, { s with
          resizeIdx := s.resizeIdx + 1,
          winW := if ok then w else s.winW,
          winH := if ok then h else s.winH })

/-- One `driver.switch_to.window h` call: on success the current tab becomes `h`,
on failure (e.g. `NoSuchWindowException`) the current tab is unchanged. -/
def Session.switchTo (s : Session) (h : Handle) : Bool × Session :=
  if s.switchOk h then (true, { s with current := h }) else (false, s)

/-- Response model `BasicResponse` (`title`, `url`) of `app.py`. -/
structure BasicResponse where
  title : String
  url : Url
deriving DecidableEq, Repr

/-- Entry of the `/api/tabs` listing (`TabInfo` in `app.py`). -/
structure TabInfo where
  handle : Handle
  title : String
  url : Url
  is_current : Bool
deriving DecidableEq, Repr

/-- Response model `TabListResponse` (`tabs`, `count`). -/
structure TabListResponse where
  tabs : List TabInfo
  count : Nat
deriving DecidableEq, Repr

/-- Response model `StatusResponse` of `/api/status`. -/
structure StatusResponse where
  browser_running : Bool
  title : Option String
  url : Option Url
  window_handles : Option (List Handle)
  current_window_handle : Option Handle
  tabs_count : Option Nat
deriving DecidableEq, Repr

/-- Response of `/api/open_tab` (the fields of `TabOperationResponse` it fills). -/
structure OpenTabResponse where
  url : Url
  title : String
  window_handle : Handle
deriving DecidableEq, Repr

/-- The blanket `except Exception as e: raise HTTPException(500, msg + str(e))`
clause found at the end of the tab/navigation endpoints.  Note that it also
catches `HTTPException`s raised inside the `try` body, re-wrapping them. -/
def wrap500 {α : Type} (msg : String) : Except Exc α × Session → Except Exc α × Session
  | (.ok a, s) => (.ok a, s)
  | (.error e, s) => (.error (.http 500 (msg ++ excStr e)), s)

/-- `get_driver` from `app.py`: return the live driver or raise
`HTTPException(400, "浏览器未启动")`.  (Defined in the source but the endpoints
check the global `driver` directly instead of calling it.) -/
def get_driver (g : Option Session) : Except Exc Session :=
  match g with
  | none => .error (.http 400 "浏览器未启动")
  | some s => .ok s

/-- The `try` body of `wait_for_page_load`: poll `document.readyState` with the
primary timeout, then poll image completeness; a timed-out poll raises
`TimeoutException`, an errored poll raises a driver-level exception. -/
def waitBody (primary images : PollOutcome) : Except Exc WaitResult :=
  match primary with
  | .timedOut => .error .seleniumTimeout
  | .errored => .error driverErrE
  | .complete =>
    match images with
    | .timedOut => .error .seleniumTimeout
    | .errored => .error driverErrE
    | .complete => .ok .loaded

/-- `wait_for_page_load` from `app.py`: the try body plus its
`except TimeoutException` / `except Exception` clauses, which only log.
The return type still allows an exception so that "this function never raises"
is a provable fact rather than a typing artefact. -/
def wait_for_page_load (primary images : PollOutcome) : Except Exc WaitResult :=
  match waitBody primary images with
  | .ok r => .ok r
  | .error .seleniumTimeout => .ok .softTimeout
  | .error _ => .ok .softError

/-- The `try` body of `wait_for_page_load_safely`: only the `readyState` poll
(with a shorter timeout); the image-completeness check is skipped. -/
def safeWaitBody (primary : PollOutcome) : Except Exc WaitResult :=
  match primary with
  | .timedOut => .error .seleniumTimeout
  | .errored => .error driverErrE
  | .complete => .ok .loaded

/-- `wait_for_page_load_safely` from `app.py`: like `wait_for_page_load` but with
only the primary poll; its `except` clauses swallow every exception. -/
def wait_for_page_load_safely (primary : PollOutcome) : Except Exc WaitResult :=
  match safeWaitBody primary with
  | .ok r => .ok r
  | .error .seleniumTimeout => .ok .softTimeout
  | .error _ => .ok .softError

/-- The innermost `try` of `take_full_page_screenshot_safely` (lines 322-340 of
`app.py`): resize to (`tw`, `th`), capture, restore to (`ow`, `oh`).  Its
`except` clause fires when the resize, the capture or the restoring resize
raises; it then makes one more restore attempt (whose own failure is swallowed
by `except: pass`) and returns the backup image. -/
def resizeCaptureRestore (s : Session) (backup : Bytes) (tw th ow oh : Int) :
    Except Exc Bytes × Session :=
  let a := s.setWinSize tw th
  if a.1 = true then
    let c := a.2.takeCap
    match c.1 with
    | none =>
      (.ok backup, (c.2.setWinSize ow oh).2)
    | some shot =>
      let b := c.2.setWinSize ow oh
      if b.1 = true then (.ok shot, b.2)
      else (.ok backup, (b.2.setWinSize ow oh).2)
  else (.ok backup, (a.2.setWinSize ow oh).2)

/-- The outer `except Exception` of `take_full_page_screenshot_safely`
(lines 344-351): one final viewport-capture attempt; if it also raises, raise
`HTTPException(500, "截图功能完全失败，请重启浏览器")`. -/
def finalFallback (s : Session) : Except Exc Bytes × Session :=
  let c := s.takeCap
  match c.1 with
  | some b => (.ok b, c.2)
  | none => (.error (.http 500 "截图功能完全失败，请重启浏览器"), c.2)

/-- `take_full_page_screenshot_safely` from `app.py`: take a backup viewport
capture first; read the page scroll dimensions (substituting 1920x1080 when a
dimension is non-positive), read `window.innerWidth`/`innerHeight` and the
current window size, then resize-capture-restore; any failure of the geometry
introspection falls back to the backup capture, and only the failure of the
backup capture itself reaches the outer fallback. -/
def take_full_page_screenshot_safely (s : Session) : Except Exc Bytes × Session :=
  let c := s.takeCap
  match c.1 with
  | none => finalFallback c.2
  | some backup =>
    match c.2.scrollW, c.2.scrollH with
    | some tw0, some th0 =>
      let tw : Int := if tw0 ≤ 0 ∨ th0 ≤ 0 then 1920 else tw0
      let th : Int := if tw0 ≤ 0 ∨ th0 ≤ 0 then 1080 else th0
      if c.2.innerSizeOk then
        if c.2.getWinSizeOk then
          resizeCaptureRestore c.2 backup tw th c.2.winW c.2.winH
        else (.ok backup, c.2)
      else (.ok backup, c.2)
    | _, _ => (.ok backup, c.2)

/-- `/api/screenshot` (`take_screenshot` in `app.py`): check the driver is set,
probe `driver.current_url` as a connection check, wait safely for page load, try
a plain viewport capture, and on its failure fall back to
`take_full_page_screenshot_safely`.  `HTTPException`s raised inside pass the
outer `except HTTPException: raise` unchanged.  (Writing the PNG to a temp file
and the `FileResponse` are abstracted: the endpoint delivers the bytes.) -/
def take_screenshot (g : Option Session) : Except Exc Bytes × Option Session :=
  match g with
  | none => (.error notRunningE, none)
  | some s =>
    match s.urlOf s.current with
    | none => (.error (.http 500 "浏览器连接失败，请重启浏览器"), some s)
    | some _ =>
      match wait_for_page_load_safely s.primaryPoll with
      | .error e => (.error (.http 500 ("截图失败: " ++ excStr e)), some s)
      | .ok _ =>
        let c := s.takeCap
        match c.1 with
        | some shot => (.ok shot, some c.2)
        | none =>
          let p := take_full_page_screenshot_safely c.2
          (p.1, some p.2)

/-- `/api/navigate` (`navigate_to_url` in `app.py`), after `format_url` has been
applied: `driver.get`, `wait_for_page_load`, then return title and current URL.
A `TimeoutException` (from `driver.get` or escaping the waiter) is answered with
the current title/url; inside that handler a failing title/url read propagates
unhandled.  Any other exception is wrapped into `HTTPException(500, "导航失败: ...")`. -/
def navigateCore (s : Session) (u : Url) : Except Exc BasicResponse × Session :=
  match s.getResult u with
  | some .seleniumTimeout =>
    match s.titleOf s.current, s.urlOf s.current with
    | some t, some cu => (.ok ⟨t, cu⟩, s)
    | _, _ => (.error driverErrE, s)
  | some e => (.error (.http 500 ("导航失败: " ++ excStr e)), s)
  | none =>
    match wait_for_page_load s.primaryPoll s.imagesPoll with
    | .error .seleniumTimeout =>
      match s.titleOf s.current, s.urlOf s.current with
      | some t, some cu => (.ok ⟨t, cu⟩, s)
      | _, _ => (.error driverErrE, s)
    | .error e => (.error (.http 500 ("导航失败: " ++ excStr e)), s)
    | .ok _ =>
      match s.titleOf s.current, s.urlOf s.current with
      | some t, some cu => (.ok ⟨t, cu⟩, s)
      | _, _ => (.error (.http 500 ("导航失败: " ++ excStr driverErrE)), s)

/-- `/api/navigate`: driver-None check, then `format_url`, then the core. -/
def navigate_to_url (g : Option Session) (url : Url) :
    Except Exc BasicResponse × Option Session :=
  match g with
  | none => (.error notRunningE, none)
  | some s =>
    match navigateCore s (format_url url) with
    | (r, s1) => (r, some s1)

/-- The `try` body of `/api/open_tab` (`open_new_tab` in `app.py`):
`window.open('')`, switch to the last handle, optionally `format_url` + navigate
(`request.url or "about:blank"`; an empty or missing URL degrades to
`about:blank` and skips navigation), return url/title/handle. -/
def openTabBody (s : Session) (reqUrl : Option Url) : Except Exc OpenTabResponse × Session :=
  if s.execOpenOk then
    let s1 : Session := { s with handles := s.handles ++ [s.newHandle] }
    match s1.handles.getLast? with
    | none => (.error driverErrE, s1)
    | some h =>
      match s1.switchTo h with
      | (false, s2) => (.error driverErrE, s2)
      | (true, s2) =>
        let url : Url := match reqUrl with
          | none => "about:blank".toList
          | some [] => "about:blank".toList
          | some u => u
        if url ≠ "about:blank".toList then
          let fu := format_url url
          match s2.getResult fu with
          | some e => (.error e, s2)
          | none =>
            match wait_for_page_load s2.primaryPoll s2.imagesPoll with
            | .error e => (.error e, s2)
            | .ok _ =>
              match s2.titleOf s2.current with
              | none => (.error driverErrE, s2)
              | some t => (.ok ⟨fu, t, s2.current⟩, s2)
        else
          match s2.titleOf s2.current with
          | none => (.error driverErrE, s2)
          | some t => (.ok ⟨url, t, s2.current⟩, s2)
  else (.error driverErrE, s)

/-- `/api/open_tab`: driver-None check, body, blanket 500 wrap. -/
def open_new_tab (g : Option Session) (reqUrl : Option Url) :
    Except Exc OpenTabResponse × Option Session :=
  match g with
  | none => (.error notRunningE, none)
  | some s =>
    match wrap500 "打开新标签页失败: " (openTabBody s reqUrl) with
    | (r, s1) => (r, some s1)

/-- The enumeration loop of `/api/tabs`: switch to each handle in turn, read its
title and URL, record whether it equals the saved current handle. -/
def listTabsLoop (s : Session) (hs : List Handle) (cur : Handle) (acc : List TabInfo) :
    Except Exc (List TabInfo) × Session :=
  match hs with
  | [] => (.ok acc, s)
  | h :: rest =>
    match s.switchTo h with
    | (false, s1) => (.error driverErrE, s1)
    | (true, s1) =>
      match s1.titleOf s1.current, s1.urlOf s1.current with
      | some t, some u => listTabsLoop s1 rest cur (acc ++ [⟨h, t, u, h == cur⟩])
      | _, _ => (.error driverErrE, s1)

/-- The `try` body of `/api/tabs` (`list_tabs` in `app.py`): save the current
handle, enumerate all tabs, switch back to the saved handle, return the listing.
Note the switch-back happens only on the success path of the `try`. -/
def listTabsBody (s : Session) : Except Exc TabListResponse × Session :=
  match listTabsLoop s s.handles s.current [] with
  | (.error e, s1) => (.error e, s1)
  | (.ok tabs, s1) =>
    match s1.switchTo s.current with
    | (false, s2) => (.error driverErrE, s2)
    | (true, s2) => (.ok ⟨tabs, tabs.length⟩, s2)

/-- `/api/tabs`: driver-None check, body, blanket 500 wrap. -/
def list_tabs (g : Option Session) : Except Exc TabListResponse × Option Session :=
  match g with
  | none => (.error notRunningE, none)
  | some s =>
    match wrap500 "获取标签页列表失败: " (listTabsBody s) with
    | (r, s1) => (r, some s1)

/-- The `try` body of `/api/switch_tab` (`switch_tab` in `app.py`): raise
`HTTPException(404)` when the handle is not among `driver.window_handles`, else
switch and return title/url. -/
def switchTabBody (s : Session) (h : Handle) : Except Exc BasicResponse × Session :=
  if h ∈ s.handles then
    match s.switchTo h with
    | (false, s1) => (.error driverErrE, s1)
    | (true, s1) =>
      match s1.titleOf s1.current, s1.urlOf s1.current with
      | some t, some u => (.ok ⟨t, u⟩, s1)
      | _, _ => (.error driverErrE, s1)
  else (.error (.http 404 "指定的标签页不存在"), s)

/-- `/api/switch_tab`: the falsy missing-handle check `if not request.handle`
(`HTTPException(400)`, firing for an absent handle AND for the empty string)
comes FIRST, then the driver-None check, then the body inside
`try ... except Exception`, whose blanket wrap also catches the
`HTTPException(404)` raised by the body. -/
def switch_tab (g : Option Session) (reqHandle : Option Handle) :
    Except Exc BasicResponse × Option Session :=
  match reqHandle with
  | none => (.error (.http 400 "缺少标签页句柄参数"), g)
  | some h =>
    if h = "" then (.error (.http 400 "缺少标签页句柄参数"), g)
    else
      match g with
      | none => (.error notRunningE, none)
      | some s =>
        match wrap500 "切换标签页失败: " (switchTabBody s h) with
        | (r, s1) => (r, some s1)

/-- The `try` body of `/api/close_tab` (`close_tab` in `app.py`): resolve the
handle with the falsy default `request.handle or driver.current_window_handle`
(an absent handle AND the empty string both resolve to the current tab), raise
`HTTPException(404)` if unknown, `HTTPException(400)` if it is the last open
tab; otherwise switch to it, close it, and switch to the first remaining
handle. -/
def closeTabBody (s : Session) (reqHandle : Option Handle) : Except Exc Nat × Session :=
  let tab := match reqHandle with
    | none => s.current
    | some h => if h = "" then s.current else h
  if tab ∈ s.handles then
    if s.handles.length == 1 then (.error (.http 400 "不能关闭最后一个标签页"), s)
    else
      match s.switchTo tab with
      | (false, s1) => (.error driverErrE, s1)
      | (true, s1) =>
        if s1.closeOk then
          let s2 : Session := { s1 with handles := s1.handles.erase tab }
          match s2.handles with
          | [] => (.error driverErrE, s2)
          | h0 :: _ =>
            match s2.switchTo h0 with
            | (false, s3) => (.error driverErrE, s3)
            | (true, s3) => (.ok s3.handles.length, s3)
        else (.error driverErrE, s1)
  else (.error (.http 404 "指定的标签页不存在"), s)

/-- `/api/close_tab`: driver-None check, then the body inside
`try ... except Exception`, whose blanket wrap also catches the domain-level
`HTTPException`s (404 tab-not-found, 400 last-tab) raised by the body. -/
def close_tab (g : Option Session) (reqHandle : Option Handle) :
    Except Exc Nat × Option Session :=
  match g with
  | none => (.error notRunningE, none)
  | some s =>
    match wrap500 "关闭标签页失败: " (closeTabBody s reqHandle) with
    | (r, s1) => (r, some s1)

/-- `/api/execute_script` (`execute_script` in `app.py`): empty-script check
(`HTTPException(400)`) FIRST, then the driver-None check, then run the script;
a raising script is wrapped into `HTTPException(500)`, and the serialisation of
a successful result never raises (it degrades to `str(result)`). -/
def execute_script (g : Option Session) (script : String) :
    Except Exc (Option String) × Option Session :=
  if script = "" then (.error (.http 400 "缺少JavaScript代码"), g)
  else
    match g with
    | none => (.error notRunningE, none)
    | some s =>
      match s.scriptResult script with
      | none => (.error (.http 500 ("执行JavaScript代码失败: " ++ excStr driverErrE)), some s)
      | some v => (.ok v, some s)

/-- `/api/status` (`get_status` in `app.py`): with no driver, report
`browser_running = False`; with a driver, read title, current URL, the handle
list, the current handle and the tab count — with NO `try`/`except`, so a
raising driver read propagates out of the endpoint unhandled. -/
def get_status (g : Option Session) : Except Exc StatusResponse × Option Session :=
  match g with
  | none => (.ok ⟨false, none, none, none, none, none⟩, none)
  | some s =>
    match s.titleOf s.current, s.urlOf s.current with
    | some t, some u =>
      (.ok ⟨true, some t, some u, some s.handles, some s.current, some s.handles.length⟩,
       some s)
    | _, _ => (.error driverErrE, some s)

/-- A fully healthy one-tab session used as the base of the concrete scenarios:
every driver call succeeds. -/
def baseSession : Session where
  handles := ["A"]
  current := "A"
  winW := 2560
  winH := 1440
  titleOf := fun _ => some "Bing"
  urlOf := fun _ => some "https://www.bing.com/".toList
  switchOk := fun _ => true
  caps := fun _ => some [137, 80, 78, 71]
  capIdx := 0
  resizes := fun _ => true
  resizeIdx := 0
  getWinSizeOk := true
  scrollW := some 3000
  scrollH := some 5000
  innerSizeOk := true
  getResult := fun _ => none
  primaryPoll := .complete
  imagesPoll := .complete
  closeOk := true
  execOpenOk := true
  newHandle := "B"
  scriptResult := fun _ => some (some "42")

/-- Two healthy tabs `A` (current) and `B`. -/
def twoTabSession : Session :=
  { baseSession with handles := ["A", "B"] }

/-- Two tabs where reading `driver.title` on tab `B` raises. -/
def badTitleBSession : Session :=
  { twoTabSession with
      titleOf := fun h => if h = "B" then none else some "Bing" }

/-- A session where every `driver.title` read raises (unresponsive driver). -/
def deadTitleSession : Session :=
  { baseSession with titleOf := fun _ => none }

/-- A session whose driver times out on every navigation. -/
def timeoutNavSession : Session :=
  { baseSession with getResult := fun _ => some .seleniumTimeout }

/-- A session where the first `set_window_size` (the resize to full-page
dimensions) succeeds, the capture taken at the enlarged size raises, and the
restoring `set_window_size` raises as well. -/
def flakyResizeSession : Session :=
  { baseSession with
      caps := fun n => if n == 0 then some [137, 80, 78, 71] else none,
      resizes := fun n => n == 0 }

/-- A session whose full-page geometry introspection raises, so the screenshot
fallback tier must trigger. -/
def badGeometrySession : Session :=
  { baseSession with
      scrollW := none,
      scrollH := none,
      caps := fun n => match n with
        | 0 => none
        | _ + 1 => some [1, 2, 3] }

/-- A session whose every `driver.current_url` read raises (the screenshot
endpoint's connection probe fails), while captures would succeed. -/
def deadUrlSession : Session :=
  { baseSession with urlOf := fun _ => none }

/-- `HTTPException(404, "指定的标签页不存在")` — the tab-not-found domain error. -/
def tabNotFoundE : Exc := .http 404 "指定的标签页不存在"

/-- `HTTPException(400, "不能关闭最后一个标签页")` — the last-tab domain error. -/
def lastTabE : Exc := .http 400 "不能关闭最后一个标签页"

/-- `HTTPException(400, "缺少标签页句柄参数")` — missing-handle validation error. -/
def missingHandleE : Exc := .http 400 "缺少标签页句柄参数"

/-- `HTTPException(500, "截图功能完全失败，请重启浏览器")` — the CaptureFailed error
raised when every screenshot tier has been exhausted. -/
def captureFailedE : Exc := .http 500 "截图功能完全失败，请重启浏览器"

/-- The current handle recorded in an endpoint's resulting driver state
(`""` when the driver is `None`). -/
def currentOf : Option Session → Handle
  | none => ""
  | some s => s.current

theorem startsWithL_append (p u : List Char) : startsWithL p (p ++ u) = true := by
  induction p with
  | nil => rfl
  | cons c cs ih => simp [startsWithL, ih]

theorem wait_for_page_load_never_raises (p i : PollOutcome) :
    ∃ r, wait_for_page_load p i = Except.ok r := by
  cases p <;> cases i <;> exact ⟨_, rfl⟩

theorem wait_for_page_load_safely_never_raises (p : PollOutcome) :
    ∃ r, wait_for_page_load_safely p = Except.ok r := by
  cases p <;> exact ⟨_, rfl⟩

/-- C9: `navigate` applied to a bare host string is equivalent to `navigate`
applied to the same string with the `https://` prefix: `format_url` prepends
`https://` to every URL not already starting with `http://` or `https://`,
leaves already-prefixed URLs unchanged, and the navigate endpoint treats the
bare and the prefixed spelling identically. -/
theorem format_url_bare_host_prefixing :
    ∀ (u : Url),
      startsWithL "http://".toList u = false →
      startsWithL "https://".toList u = false →
      format_url u = "https://".toList ++ u ∧
      (∀ v : Url,
        startsWithL "http://".toList v = true ∨ startsWithL "https://".toList v = true →
        format_url v = v) ∧
      (∀ g : Option Session,
        navigate_to_url g u = navigate_to_url g ("https://".toList ++ u)) := by
  intro u h1 h2
  have hfu : format_url u = "https://".toList ++ u := by
    unfold format_url
    rw [h1, h2]
    rfl
  have hfp : format_url ("https://".toList ++ u) = "https://".toList ++ u := by
    unfold format_url
    rw [startsWithL_append]
    simp
  refine ⟨hfu, ?_, ?_⟩
  · intro v hv
    unfold format_url
    rcases hv with hv | hv <;> rw [hv] <;> simp
  · intro g
    have hform : format_url u = format_url ("https://".toList ++ u) := by
      rw [hfu, hfp]
    cases g with
    | none => rfl
    | some s =>
      simp only [navigate_to_url]
      rw [hform]

/-- C9 witness: `navigate("example.com")` is `navigate("https://example.com")`. -/
theorem format_url_bare_host_prefixing_witness :
    (startsWithL "http://".toList "example.com".toList = false ∧
     startsWithL "https://".toList "example.com".toList = false) ∧
    (format_url "example.com".toList = "https://".toList ++ "example.com".toList ∧
     (∀ v : Url,
        startsWithL "http://".toList v = true ∨ startsWithL "https://".toList v = true →
        format_url v = v) ∧
     (∀ g : Option Session,
        navigate_to_url g "example.com".toList =
          navigate_to_url g ("https://".toList ++ "example.com".toList))) :=
  ⟨⟨by decide, by decide⟩,
   format_url_bare_host_prefixing "example.com".toList (by decide) (by decide)⟩

/-- C10: URL prefixing keys only on the literal prefixes `http://` and
`https://`: a string passes through `format_url` unmodified only when it starts
with one of them, and e.g. `ftp://host` becomes `https://ftp://host`. -/
theorem format_url_scheme_passthrough :
    (∀ u : Url, format_url u = u →
      startsWithL "http://".toList u = true ∨ startsWithL "https://".toList u = true) ∧
    format_url "ftp://host".toList = "https://ftp://host".toList := by
  constructor
  · intro u hu
    by_cases hA : startsWithL "http://".toList u = true
    · exact Or.inl hA
    · by_cases hB : startsWithL "https://".toList u = true
      · exact Or.inr hB
      · exfalso
        rw [Bool.not_eq_true] at hA hB
        have hfu2 : format_url u = "https://".toList ++ u := by
          unfold format_url
          rw [hA, hB]
          rfl
        rw [hfu2] at hu
        have hlen := congrArg List.length hu
        rw [List.length_append] at hlen
        have h8 : ("https://".toList).length = 8 := rfl
        omega
  · decide

/-- C10 witness: `https://x` passes through, hence starts with a kept scheme. -/
theorem format_url_scheme_passthrough_witness :
    format_url "https://x".toList = "https://x".toList ∧
    (startsWithL "http://".toList "https://x".toList = true ∨
     startsWithL "https://".toList "https://x".toList = true) :=
  ⟨by decide, format_url_scheme_passthrough.1 "https://x".toList (by decide)⟩

/-- C8: a `TimeoutException` from `driver.get` is answered with the current
title and URL instead of an error, and the post-navigation
`wait_for_page_load` never lets a readiness timeout escape. -/
theorem navigate_timeout_is_soft :
    ∀ (s : Session) (url : Url) (t : String) (u : Url),
      s.titleOf s.current = some t →
      s.urlOf s.current = some u →
      (s.getResult (format_url url) = some Exc.seleniumTimeout ∨
        s.getResult (format_url url) = none) →
      navigate_to_url (some s) url = (.ok ⟨t, u⟩, some s) ∧
      (∀ p i, ∃ r, wait_for_page_load p i = Except.ok r) := by
  intro s url t u ht hu hget
  refine ⟨?_, fun p i => wait_for_page_load_never_raises p i⟩
  rcases hget with hg | hg
  · simp [navigate_to_url, navigateCore, hg, ht, hu]
  · obtain ⟨r, hr⟩ := wait_for_page_load_never_raises s.primaryPoll s.imagesPoll
    simp [navigate_to_url, navigateCore, hg, hr, ht, hu]

/-- C8 witness: a session whose every navigation times out still returns title
and URL from `/api/navigate`. -/
theorem navigate_timeout_is_soft_witness :
    (timeoutNavSession.titleOf timeoutNavSession.current = some "Bing" ∧
     timeoutNavSession.urlOf timeoutNavSession.current = some "https://www.bing.com/".toList ∧
     timeoutNavSession.getResult (format_url "example.com".toList) =
       some Exc.seleniumTimeout) ∧
    (navigate_to_url (some timeoutNavSession) "example.com".toList =
       (.ok ⟨"Bing", "https://www.bing.com/".toList⟩, some timeoutNavSession) ∧
     (∀ p i, ∃ r, wait_for_page_load p i = Except.ok r)) :=
  ⟨⟨rfl, rfl, rfl⟩,
   navigate_timeout_is_soft timeoutNavSession "example.com".toList "Bing"
     "https://www.bing.com/".toList rfl rfl (Or.inl rfl)⟩

theorem wrap500_ok {α : Type} (m : String) (p : Except Exc α × Session) (a : α)
    (h : (wrap500 m p).1 = .ok a) : p.1 = .ok a := by
  rcases p with ⟨r, s⟩
  cases r with
  | ok b => simpa [wrap500] using h
  | error e => simp [wrap500] at h

theorem wrap500_state {α : Type} (m : String) (p : Except Exc α × Session) :
    (wrap500 m p).2 = p.2 := by
  rcases p with ⟨r, s⟩
  cases r <;> rfl

/-- C1: FALSIFIED as stated — `switch_tab` with an unknown handle while a
session is active does raise the domain-level `HTTPException(404)` tab-not-found
error, but the endpoint's blanket `except Exception` catches it and re-raises it
wrapped inside `HTTPException(500, "切换标签页失败: ...")`, so the failure does NOT
pass through unchanged; the caller sees only the wrapped 500. -/
theorem switch_tab_wraps_tab_not_found :
    (switch_tab (some baseSession) (some "B")).1 =
      .error (.http 500 ("切换标签页失败: " ++ excStr tabNotFoundE)) ∧
    (switch_tab (some baseSession) (some "B")).1 ≠ .error tabNotFoundE ∧
    (switch_tab (some baseSession) (some "B")).2 = some baseSession := by
  refine ⟨rfl, ?_, rfl⟩
  intro h
  exact absurd (Except.error.inj h) (by decide)

/-- C2: PARTIALLY FALSIFIED as stated — `close_tab` on the sole remaining tab
raises the domain-level `HTTPException(400)` last-tab error and leaves the tab
set unchanged, but the blanket `except Exception` wraps that failure into
`HTTPException(500, "关闭标签页失败: ...")`, so the surfaced failure kind is the
generic 500, not the `LastTabError` itself. -/
theorem close_tab_wraps_last_tab_error :
    (close_tab (some baseSession) none).1 =
      .error (.http 500 ("关闭标签页失败: " ++ excStr lastTabE)) ∧
    (close_tab (some baseSession) none).1 ≠ .error lastTabE ∧
    (close_tab (some baseSession) none).2 = some baseSession ∧
    baseSession.handles = ["A"] := by
  refine ⟨rfl, ?_, rfl, rfl⟩
  intro h
  exact absurd (Except.error.inj h) (by decide)

/-- C4 counterexample: `switch_tab` validates the request handle BEFORE checking
whether a session is active, so calling it with a missing handle and no session
fails with the 400 missing-handle error, not with `NotRunning`. -/
theorem switch_tab_validation_precedes_session_check :
    switch_tab none none = (.error missingHandleE, none) ∧
    missingHandleE ≠ notRunningE := by
  refine ⟨rfl, by decide⟩

/-- C4 (amended): every operation other than start/status, called without an
active session, fails with `NotRunning` and leaves the (absent) state untouched —
EXCEPT that `switch_tab` with a falsy handle (missing OR the empty string) and
`execute_script` with an empty script fail their input-validation checks (400)
before the session check. -/
theorem no_session_not_running :
    ∀ (url : Url) (reqUrl : Option Url) (h : Handle) (reqH : Option Handle) (script : String),
      navigate_to_url none url = (.error notRunningE, none) ∧
      open_new_tab none reqUrl = (.error notRunningE, none) ∧
      list_tabs none = (.error notRunningE, none) ∧
      (h ≠ "" → switch_tab none (some h) = (.error notRunningE, none)) ∧
      switch_tab none (some "") = (.error missingHandleE, none) ∧
      close_tab none reqH = (.error notRunningE, none) ∧
      (script ≠ "" → execute_script none script = (.error notRunningE, none)) ∧
      take_screenshot none = (.error notRunningE, none) := by
  intro url reqUrl h reqH script
  refine ⟨rfl, rfl, rfl, ?_, rfl, rfl, ?_, rfl⟩
  · intro hh
    simp [switch_tab, hh]
  · intro hs
    simp [execute_script, hs]

/-- C4 witness: concrete inputs for every operation, without a session. -/
theorem no_session_not_running_witness :
    (("B" : Handle) ≠ "" ∧ ("alert(1)" : String) ≠ "") ∧
    (navigate_to_url none "example.com".toList = (.error notRunningE, none) ∧
     open_new_tab none none = (.error notRunningE, none) ∧
     list_tabs none = (.error notRunningE, none) ∧
     switch_tab none (some "B") = (.error notRunningE, none) ∧
     switch_tab none (some "") = (.error missingHandleE, none) ∧
     close_tab none none = (.error notRunningE, none) ∧
     execute_script none "alert(1)" = (.error notRunningE, none) ∧
     take_screenshot none = (.error notRunningE, none)) := by
  have h := no_session_not_running "example.com".toList none "B" none "alert(1)"
  exact ⟨⟨by decide, by decide⟩,
    h.1, h.2.1, h.2.2.1, h.2.2.2.1 (by decide), h.2.2.2.2.1, h.2.2.2.2.2.1,
    h.2.2.2.2.2.2.1 (by decide), h.2.2.2.2.2.2.2⟩

/-- C5 counterexample: `get_status` has no exception handling, so with an active
session whose driver raises on the `driver.title` read, the status operation
fails (the exception propagates out of the endpoint) instead of returning the
running flag. -/
theorem get_status_can_fail :
    (get_status (some deadTitleSession)).1 = .error driverErrE ∧
    deadTitleSession.titleOf deadTitleSession.current = none := by
  exact ⟨rfl, rfl⟩

/-- C5 (amended): `get_status` never fails when no session is active (it reports
`browser_running = False`), and with an active session it returns the full
status exactly when the driver's title/url reads respond; an unresponsive
driver makes the endpoint propagate the raised exception. -/
theorem get_status_amended :
    (get_status none = (.ok ⟨false, none, none, none, none, none⟩, none)) ∧
    (∀ (s : Session) (t : String) (u : Url),
      s.titleOf s.current = some t → s.urlOf s.current = some u →
      get_status (some s) =
        (.ok ⟨true, some t, some u, some s.handles, some s.current, some s.handles.length⟩,
         some s)) := by
  refine ⟨rfl, ?_⟩
  intro s t u ht hu
  simp [get_status, ht, hu]

/-- C5 witness: the healthy base session reports its full status. -/
theorem get_status_amended_witness :
    (baseSession.titleOf baseSession.current = some "Bing" ∧
     baseSession.urlOf baseSession.current = some "https://www.bing.com/".toList) ∧
    get_status (some baseSession) =
      (.ok ⟨true, some "Bing", some "https://www.bing.com/".toList,
            some ["A"], some "A", some 1⟩,
       some baseSession) :=
  ⟨⟨rfl, rfl⟩, get_status_amended.2 baseSession "Bing" "https://www.bing.com/".toList rfl rfl⟩

/-- C7 counterexample: when the enumeration of `/api/tabs` fails partway (here:
the `driver.title` read on tab `B` raises), the saved current tab is NOT
restored — the session is left with tab `B` current although tab `A` was
current before the call. -/
theorem list_tabs_failure_moves_current :
    (list_tabs (some badTitleBSession)).1 =
      .error (.http 500 ("获取标签页列表失败: " ++ excStr driverErrE)) ∧
    currentOf (list_tabs (some badTitleBSession)).2 = "B" ∧
    badTitleBSession.current = "A" ∧
    ("B" : Handle) ≠ "A" := by
  refine ⟨rfl, rfl, rfl, by decide⟩

theorem listTabsBody_ok_current (s : Session) (r : TabListResponse)
    (h : (listTabsBody s).1 = .ok r) : (listTabsBody s).2.current = s.current := by
  unfold listTabsBody at h ⊢
  split at h
  next e s1 heq =>
    exact absurd h (by simp)
  next tabs s1 heq =>
    split at h
    next s2 heq2 =>
      exact absurd h (by simp)
    next s2 heq2 =>
      show s2.current = s.current
      unfold Session.switchTo at heq2
      by_cases hsw : s1.switchOk s.current = true
      · rw [if_pos hsw] at heq2
        have h2 := congrArg Prod.snd heq2
        simp at h2
        rw [← h2]
      · rw [Bool.not_eq_true] at hsw
        rw [if_neg (by rw [hsw]; exact Bool.false_ne_true)] at heq2
        have h2 := congrArg Prod.fst heq2
        simp at h2

theorem list_tabs_some_eq (s : Session) :
    list_tabs (some s) = ((wrap500 "获取标签页列表失败: " (listTabsBody s)).1,
                          some (wrap500 "获取标签页列表失败: " (listTabsBody s)).2) := by
  show (match wrap500 "获取标签页列表失败: " (listTabsBody s) with
        | (r, s1) => (r, some s1)) =
    ((wrap500 "获取标签页列表失败: " (listTabsBody s)).1,
     some (wrap500 "获取标签页列表失败: " (listTabsBody s)).2)
  split
  next a b heq => rw [heq]

/-- C7 (amended): on the success path `/api/tabs` restores the previously
current tab (current before == current after), but on a partial failure the
restore is skipped and the current tab can be left at the last tab visited. -/
theorem list_tabs_success_restores_current :
    ∀ (s : Session) (r : TabListResponse),
      (list_tabs (some s)).1 = .ok r →
      currentOf (list_tabs (some s)).2 = s.current := by
  intro s r h
  rw [list_tabs_some_eq] at h
  have hbody : (listTabsBody s).1 = .ok r := wrap500_ok _ _ _ h
  rw [list_tabs_some_eq]
  show (wrap500 "获取标签页列表失败: " (listTabsBody s)).2.current = s.current
  rw [wrap500_state]
  exact listTabsBody_ok_current s r hbody

/-- C7 witness: with two healthy tabs, the listing succeeds and tab `A` is
still current afterwards. -/
theorem list_tabs_success_restores_current_witness :
    (list_tabs (some twoTabSession)).1 =
      .ok ⟨[⟨"A", "Bing", "https://www.bing.com/".toList, true⟩,
            ⟨"B", "Bing", "https://www.bing.com/".toList, false⟩], 2⟩ ∧
    currentOf (list_tabs (some twoTabSession)).2 = twoTabSession.current :=
  ⟨rfl, list_tabs_success_restores_current twoTabSession
    ⟨[⟨"A", "Bing", "https://www.bing.com/".toList, true⟩,
      ⟨"B", "Bing", "https://www.bing.com/".toList, false⟩], 2⟩ rfl⟩

theorem setWinSize_fst (s : Session) (w h : Int) :
    (s.setWinSize w h).1 = s.resizes s.resizeIdx := rfl

theorem setWinSize_winW (s : Session) (w h : Int)
    (hok : s.resizes s.resizeIdx = true) : (s.setWinSize w h).2.winW = w := by
  simp [Session.setWinSize, hok]

theorem setWinSize_winH (s : Session) (w h : Int)
    (hok : s.resizes s.resizeIdx = true) : (s.setWinSize w h).2.winH = h := by
  simp [Session.setWinSize, hok]

theorem finalFallback_state (s : Session) : (finalFallback s).2 = (s.takeCap).2 := by
  simp only [finalFallback]
  split <;> rfl

theorem resizeCaptureRestore_winW (s : Session) (backup : Bytes) (tw th ow oh : Int)
    (hres : ∀ n, s.resizes n = true) :
    (resizeCaptureRestore s backup tw th ow oh).2.winW = ow := by
  have ha : (s.setWinSize tw th).1 = true := hres _
  simp only [resizeCaptureRestore]
  rw [if_pos ha]
  split
  next heq => exact setWinSize_winW _ _ _ (hres _)
  next shot heq =>
    by_cases hb : (((s.setWinSize tw th).2.takeCap).2.setWinSize ow oh).1 = true
    · rw [if_pos hb]
      exact setWinSize_winW _ _ _ (hres _)
    · rw [if_neg hb]
      exact setWinSize_winW _ _ _ (hres _)

theorem resizeCaptureRestore_winH (s : Session) (backup : Bytes) (tw th ow oh : Int)
    (hres : ∀ n, s.resizes n = true) :
    (resizeCaptureRestore s backup tw th ow oh).2.winH = oh := by
  have ha : (s.setWinSize tw th).1 = true := hres _
  simp only [resizeCaptureRestore]
  rw [if_pos ha]
  split
  next heq => exact setWinSize_winH _ _ _ (hres _)
  next shot heq =>
    by_cases hb : (((s.setWinSize tw th).2.takeCap).2.setWinSize ow oh).1 = true
    · rw [if_pos hb]
      exact setWinSize_winH _ _ _ (hres _)
    · rw [if_neg hb]
      exact setWinSize_winH _ _ _ (hres _)

/-- C6 counterexample: with the resize to full-page dimensions succeeding, the
capture at the enlarged size raising, and the restoring `set_window_size` call
raising as well (its failure swallowed by `except: pass`), the operation
returns the backup image normally but leaves the window at the enlarged size:
3000x5000 instead of the original 2560x1440. -/
theorem window_size_not_restored_on_restore_failure :
    (take_full_page_screenshot_safely flakyResizeSession).1 = .ok [137, 80, 78, 71] ∧
    (take_full_page_screenshot_safely flakyResizeSession).2.winW = 3000 ∧
    flakyResizeSession.winW = 2560 ∧
    (3000 : Int) ≠ 2560 := by
  refine ⟨rfl, rfl, rfl, by decide⟩

/-- C6 (amended): the restoration is attempted on every exit path after a
resize, and whenever the restoring `set_window_size` calls themselves succeed
(here: all resize calls succeed), the window size after
`take_full_page_screenshot_safely` equals the window size before it, on every
path — including the one where the capture after the resize raises.  Only a
failure of the restoring call itself (swallowed by `except: pass`) can leave
the window resized. -/
theorem window_size_restored_when_resizes_succeed :
    ∀ (s : Session), (∀ n, s.resizes n = true) →
      (take_full_page_screenshot_safely s).2.winW = s.winW ∧
      (take_full_page_screenshot_safely s).2.winH = s.winH := by
  intro s hres
  constructor
  · simp only [take_full_page_screenshot_safely]
    split
    next heq =>
      rw [finalFallback_state]
      rfl
    next backup heq =>
      split
      next tw0 th0 heqW heqH =>
        by_cases hin : (s.takeCap).2.innerSizeOk = true
        · rw [if_pos hin]
          by_cases hg : (s.takeCap).2.getWinSizeOk = true
          · rw [if_pos hg]
            exact resizeCaptureRestore_winW _ _ _ _ _ _ hres
          · rw [if_neg hg]
            rfl
        · rw [if_neg hin]
          rfl
      next heq2 =>
        rfl
  · simp only [take_full_page_screenshot_safely]
    split
    next heq =>
      rw [finalFallback_state]
      rfl
    next backup heq =>
      split
      next tw0 th0 heqW heqH =>
        by_cases hin : (s.takeCap).2.innerSizeOk = true
        · rw [if_pos hin]
          by_cases hg : (s.takeCap).2.getWinSizeOk = true
          · rw [if_pos hg]
            exact resizeCaptureRestore_winH _ _ _ _ _ _ hres
          · rw [if_neg hg]
            rfl
        · rw [if_neg hin]
          rfl
      next heq2 =>
        rfl

/-- C6 witness: with a reliable resizer the base session's window size is
unchanged by a full-page capture. -/
theorem window_size_restored_witness :
    (∀ n, baseSession.resizes n = true) ∧
    ((take_full_page_screenshot_safely baseSession).2.winW = baseSession.winW ∧
     (take_full_page_screenshot_safely baseSession).2.winH = baseSession.winH) :=
  ⟨fun _ => rfl, window_size_restored_when_resizes_succeed baseSession (fun _ => rfl)⟩

theorem resizeCaptureRestore_never_fails (s : Session) (backup : Bytes)
    (tw th ow oh : Int) :
    ∃ b, (resizeCaptureRestore s backup tw th ow oh).1 = .ok b ∧
      (b = backup ∨ ∃ n, s.caps n = some b) := by
  simp only [resizeCaptureRestore]
  by_cases ha : (s.setWinSize tw th).1 = true
  · rw [if_pos ha]
    split
    next heq => exact ⟨backup, rfl, Or.inl rfl⟩
    next shot heq =>
      by_cases hb : (((s.setWinSize tw th).2.takeCap).2.setWinSize ow oh).1 = true
      · rw [if_pos hb]
        exact ⟨shot, rfl, Or.inr ⟨s.capIdx, heq⟩⟩
      · rw [if_neg hb]
        exact ⟨backup, rfl, Or.inl rfl⟩
  · rw [if_neg ha]
    exact ⟨backup, rfl, Or.inl rfl⟩

theorem finalFallback_result (s : Session) :
    (∃ b, (finalFallback s).1 = .ok b ∧ s.caps s.capIdx = some b) ∨
    ((finalFallback s).1 = .error captureFailedE ∧ s.caps s.capIdx = none) := by
  simp only [finalFallback]
  split
  next b heq => exact Or.inl ⟨b, rfl, heq⟩
  next heq => exact Or.inr ⟨rfl, heq⟩

theorem take_full_page_screenshot_safely_result (s : Session)
    (hne : ∀ n b, s.caps n = some b → b ≠ []) :
    (∃ b, (take_full_page_screenshot_safely s).1 = .ok b ∧ b ≠ []) ∨
    ((take_full_page_screenshot_safely s).1 = .error captureFailedE ∧
     s.caps s.capIdx = none ∧ s.caps (s.capIdx + 1) = none) := by
  simp only [take_full_page_screenshot_safely]
  split
  next heq =>
    rcases finalFallback_result ((s.takeCap).2) with ⟨b, hb, hcb⟩ | ⟨he, hn⟩
    · exact Or.inl ⟨b, hb, hne _ _ hcb⟩
    · exact Or.inr ⟨he, heq, hn⟩
  next backup heq =>
    have hbk : backup ≠ [] := hne _ _ heq
    split
    next tw0 th0 heqW heqH =>
      by_cases hin : (s.takeCap).2.innerSizeOk = true
      · rw [if_pos hin]
        by_cases hg : (s.takeCap).2.getWinSizeOk = true
        · rw [if_pos hg]
          rcases resizeCaptureRestore_never_fails ((s.takeCap).2) backup
              (if tw0 ≤ 0 ∨ th0 ≤ 0 then 1920 else tw0)
              (if tw0 ≤ 0 ∨ th0 ≤ 0 then 1080 else th0)
              ((s.takeCap).2.winW) ((s.takeCap).2.winH) with ⟨b, hb, hsrc⟩
          refine Or.inl ⟨b, hb, ?_⟩
          rcases hsrc with rfl | ⟨n, hn2⟩
          · exact hbk
          · exact hne _ _ hn2
        · rw [if_neg hg]
          exact Or.inl ⟨backup, rfl, hbk⟩
      · rw [if_neg hin]
        exact Or.inl ⟨backup, rfl, hbk⟩
    next heq2 =>
      exact Or.inl ⟨backup, rfl, hbk⟩

/-- C3 counterexample: with an active session whose `driver.current_url`
connection probe raises, `/api/screenshot` surfaces the user-visible
connection-failure 500 (`app.py` lines 206-211) — a failure distinct from
`CaptureFailed` — although no tier-1 viewport capture was attempted (the
capture stream would have succeeded), refuting "CaptureFailed is the only
case that surfaces as a user-visible error". -/
theorem take_screenshot_connection_error_counterexample :
    (take_screenshot (some deadUrlSession)).1 =
      .error (.http 500 "浏览器连接失败，请重启浏览器") ∧
    (Exc.http 500 "浏览器连接失败，请重启浏览器") ≠ captureFailedE ∧
    deadUrlSession.caps deadUrlSession.capIdx = some [137, 80, 78, 71] := by
  refine ⟨rfl, by decide, rfl⟩

/-- C3 (amended): with an active session whose connection probe
(`driver.current_url`) responds and whose successful captures are non-empty
PNGs, `/api/screenshot` either returns non-empty image bytes — in particular
whenever the geometry introspection or the resize throws, since those failures
fall back to an already-taken viewport capture — or fails with the final
`CaptureFailed` error, and the latter happens only when the tier-1 viewport
capture itself throws.  (When the probe itself raises, the operation instead
surfaces a distinct connection-failure 500, see the counterexample.) -/
theorem take_screenshot_capture_tiers :
    ∀ (s : Session),
      (s.urlOf s.current).isSome = true →
      (∀ n b, s.caps n = some b → b ≠ []) →
      ((∃ b, (take_screenshot (some s)).1 = .ok b ∧ b ≠ []) ∨
       ((take_screenshot (some s)).1 = .error captureFailedE ∧
        s.caps s.capIdx = none)) ∧
      (∀ e, (take_screenshot (some s)).1 = .error e →
        e = captureFailedE ∧ s.caps s.capIdx = none) := by
  intro s hurl hne
  have main : (∃ b, (take_screenshot (some s)).1 = .ok b ∧ b ≠ []) ∨
      ((take_screenshot (some s)).1 = .error captureFailedE ∧
       s.caps s.capIdx = none) := by
    simp only [take_screenshot]
    split
    next hu => rw [hu] at hurl; exact absurd hurl (by simp)
    next u hu =>
      obtain ⟨w, hw⟩ := wait_for_page_load_safely_never_raises s.primaryPoll
      split
      next e hw2 => exact absurd (hw.symm.trans hw2) (by simp)
      next w2 hw2 =>
        split
        next shot heq => exact Or.inl ⟨shot, rfl, hne _ _ heq⟩
        next heq =>
          rcases take_full_page_screenshot_safely_result ((s.takeCap).2) hne
            with ⟨b, hb, hbne⟩ | ⟨he, hn1, hn2⟩
          · exact Or.inl ⟨b, hb, hbne⟩
          · exact Or.inr ⟨he, heq⟩
  refine ⟨main, ?_⟩
  intro e he
  rcases main with ⟨b, hb, _⟩ | ⟨herr, hn⟩
  · rw [hb] at he
    exact absurd he (by simp)
  · have h2 := herr.symm.trans he
    injection h2 with h3
    exact ⟨h3.symm, hn⟩

/-- C3 witness: a session whose tier-1 capture raises and whose geometry
introspection raises still delivers the non-empty backup capture. -/
theorem take_screenshot_capture_tiers_witness :
    ((badGeometrySession.urlOf badGeometrySession.current).isSome = true ∧
     (∀ n b, badGeometrySession.caps n = some b → b ≠ [])) ∧
    (((∃ b, (take_screenshot (some badGeometrySession)).1 = .ok b ∧ b ≠ []) ∨
      ((take_screenshot (some badGeometrySession)).1 = .error captureFailedE ∧
       badGeometrySession.caps badGeometrySession.capIdx = none)) ∧
     (∀ e, (take_screenshot (some badGeometrySession)).1 = .error e →
       e = captureFailedE ∧ badGeometrySession.caps badGeometrySession.capIdx = none)) := by
  have hne : ∀ n b, badGeometrySession.caps n = some b → b ≠ [] := by
    intro n b h
    cases n with
    | zero => exact Option.noConfusion h
    | succ m =>
      injection h with h2
      rw [← h2]
      decide
  exact ⟨⟨rfl, hne⟩, take_screenshot_capture_tiers badGeometrySession rfl hne⟩
